import Mathlib

/-!
Verification of the ObjectAllocator pool engine (ObjectAllocator.cpp).

The state machine below is a shallow embedding of the C++ source.  Pages are
byte regions addressed by natural numbers; the page list and the intrusive
free list, which the source threads through the first machine word of each
page/block, are represented by ghost lists of addresses (the source never
reads those link words as data bytes: the only byte reads of a block are at
`Object + sizeof(void*)` in check_double_free, in the padding regions and in
the header region, all outside the link word).  All other byte writes of the
source (patterns, headers, padding) are modelled on an explicit byte memory
`Nat → Nat`, read modulo 256.  The host allocator (`new unsigned char[]`) is
modelled as returning fresh 16-byte-aligned regions at strictly increasing
addresses whose initial (indeterminate) contents are an arbitrary function
supplied at construction.  Machine counters of the `OAStats` record are
unsigned in the source; they are modelled as `Int` (no scenario below comes
near the 2^32 wrap).
-/

/-- Size of a machine pointer, `sizeof(void*)` on the 64-bit host. -/
def ptrSize : Nat := 8

/-- Modelled from the spec: byte pattern constants (0xAA/0xBB/0xCC/0xDD/0xEE);
the header `ObjectAllocator.h` that defines them is not part of src/. -/
def UNALLOCATED_PATTERN : Nat := 170

/-- Modelled from the spec: the 0xBB allocated pattern. -/
def ALLOCATED_PATTERN : Nat := 187

/-- Modelled from the spec: the 0xCC freed pattern. -/
def FREED_PATTERN : Nat := 204

/-- Modelled from the spec: the 0xDD padding pattern. -/
def PAD_PATTERN : Nat := 221

/-- Modelled from the spec: the 0xEE alignment pattern. -/
def ALIGN_PATTERN : Nat := 238

/-- The four header block flavors of `OAConfig::HBLOCK_TYPE`. -/
inductive HBlockType where
  | hbNone | hbBasic | hbExtended | hbExternal
deriving DecidableEq

/-- Modelled from the spec: `HBlockInfo::size_` for each flavor (the OAConfig
constructor computing it lives in the missing header): 0 for None, 5 bytes
(u32 allocation number + u8 in-use flag) for Basic, `additional + 2 + 5` for
Extended (user region, u16 use counter, then the Basic fields), pointer width
for External. -/
def hblockSize (t : HBlockType) (additional : Nat) : Nat :=
  match t with
  | .hbNone => 0
  | .hbBasic => 5
  | .hbExtended => additional + 2 + 5
  | .hbExternal => ptrSize

/-- OAConfig: the allocator configuration.  `LeftAlignSize_` and
`InterAlignSize_` are overwritten by the pool constructor. -/
structure OAConfig where
  UseCPPMemManager_ : Bool
  DebugOn_ : Bool
  ObjectsPerPage_ : Nat
  MaxPages_ : Nat
  PadBytes_ : Nat
  HBlockType_ : HBlockType
  HBlockAdditional_ : Nat
  Alignment_ : Nat
  LeftAlignSize_ : Nat
  InterAlignSize_ : Nat
deriving DecidableEq

/-- OAStats: the allocator's bookkeeping counters.  Sizes are `size_t`;
the counters are `unsigned` in the source, modelled as `Int`. -/
structure OAStats where
  ObjectSize_ : Nat
  PageSize_ : Nat
  FreeObjects_ : Int
  ObjectsInUse_ : Int
  PagesInUse_ : Int
  MostObjects_ : Int
  Allocations_ : Int
  Deallocations_ : Int
deriving DecidableEq

/-- MemBlockInfo: the heap record an External header points at. -/
structure MemBlockInfo where
  in_use : Bool
  label : Option String
  alloc_num : Nat
deriving DecidableEq

/-- The `OAException` kinds thrown by the source. -/
inductive OAErr where
  | E_NO_MEMORY | E_NO_PAGES | E_BAD_BOUNDARY | E_BAD_ADDRESS
  | E_MULTIPLE_FREE | E_CORRUPTED_BLOCK
deriving DecidableEq

/-- The whole-pool state: configuration, stats, the page list and free list
(ghost address lists mirroring the in-memory links), the byte memory, the map
from External header slots to their heap records (mirroring the owning
pointer stored in the slot), the two cached section sizes of the source, and
the next fresh host address. -/
structure PoolState where
  myConfig : OAConfig
  myStats : OAStats
  PageList_ : List Nat
  FreeList_ : List Nat
  mem : Nat → Nat
  extMap : Nat → Option MemBlockInfo
  leftPageSectionSize : Nat
  interPageSectionSize : Nat
  nextBase : Nat

/-- memset: write `n` copies of byte `v` starting at address `a`. -/
def memsetM (m : Nat → Nat) (a v n : Nat) : Nat → Nat :=
  fun x => if a ≤ x ∧ x < a + n then v else m x

/-- memcpy of an `n`-byte little-endian unsigned value `v` to address `a`. -/
def writeBytesLE (m : Nat → Nat) (a v n : Nat) : Nat → Nat :=
  fun x => if a ≤ x ∧ x < a + n then v / 256 ^ (x - a) % 256 else m x

/-- memcpy of a 2-byte little-endian unsigned short out of memory. -/
def readU16 (m : Nat → Nat) (a : Nat) : Nat :=
  m a % 256 + 256 * (m (a + 1) % 256)

/-- Block-start offsets within a page.  Every per-block loop of the source
starts a byte pointer at `pageBegin + leftPageSectionSize` and advances by
`interPageSectionSize` while the offset stays below `PageSize_`; the offsets
visited are `leftSection + k * interSection` for
`k < ceil((pageSize - leftSection) / interSection)`.  (With
`interSection = 0`, possible only for a zero object size with no header and
no padding, the source loop would not terminate; no claim touches that.) -/
def blockOffsets (leftSection interSection pageSize : Nat) : List Nat :=
  if interSection = 0 then []
  else (List.range ((pageSize - leftSection + interSection - 1) / interSection)).map
    (fun k => leftSection + k * interSection)

/-- Number of blocks the per-block loops of the source visit in one page. -/
def numBlocks (s : PoolState) : Nat :=
  (blockOffsets s.leftPageSectionSize s.interPageSectionSize s.myStats.PageSize_).length

/-- Models `new unsigned char[n]`: fresh allocations are 16-byte aligned and
strictly advance, so distinct pages never overlap. -/
def pageStride (n : Nat) : Nat := 16 * ((n + 15) / 16 + 1)

/-- The field computations of the `ObjectAllocator` constructor (everything
before the `allocate_new_page()` call): saves the object size, computes the
two alignment sizes `total % Alignment_` (0 when `Alignment_` is 0), the two
section sizes and the page size.  `initMem` is the indeterminate initial
content of host memory. -/
def initPool (ObjectSize : Nat) (config : OAConfig) (initMem : Nat → Nat) : PoolState :=
  let hsize := hblockSize config.HBlockType_ config.HBlockAdditional_
  let totalObjectSizeInPage := config.ObjectsPerPage_ * ObjectSize
  let totalPaddingSizeInPage := config.ObjectsPerPage_ * config.PadBytes_ * 2
  let totalHeaderSizeInPage := hsize * config.ObjectsPerPage_
  let leftTotalSize := hsize + config.PadBytes_ + ptrSize
  let leftAlign := if config.Alignment_ = 0 then 0 else leftTotalSize % config.Alignment_
  let interTotalSize := hsize + config.PadBytes_ * 2 + ObjectSize
  let interAlign := if config.Alignment_ = 0 then 0 else interTotalSize % config.Alignment_
  let totalAlignmentSizeInPage := leftAlign + interAlign * (config.ObjectsPerPage_ - 1)
  { myConfig := { config with LeftAlignSize_ := leftAlign, InterAlignSize_ := interAlign }
    myStats :=
      { ObjectSize_ := ObjectSize
        PageSize_ := totalObjectSizeInPage + totalPaddingSizeInPage +
          totalHeaderSizeInPage + totalAlignmentSizeInPage + ptrSize
        FreeObjects_ := 0, ObjectsInUse_ := 0, PagesInUse_ := 0
        MostObjects_ := 0, Allocations_ := 0, Deallocations_ := 0 }
    PageList_ := []
    FreeList_ := []
    mem := initMem
    extMap := fun _ => none
    leftPageSectionSize := leftTotalSize + leftAlign
    interPageSectionSize := interTotalSize + interAlign
    nextBase := 16 }

/-- Debug stamping of `set_non_data_block_pattern`: an ALIGN region of
`alignSize` bytes, then a zeroed header region, then a PAD region, written
consecutively from `start`. -/
def set_non_data_block_pattern (s : PoolState) (m : Nat → Nat) (start alignSize : Nat) :
    Nat → Nat :=
  let hsize := hblockSize s.myConfig.HBlockType_ s.myConfig.HBlockAdditional_
  memsetM
    (memsetM (memsetM m start ALIGN_PATTERN alignSize) (start + alignSize) 0 hsize)
    (start + alignSize + hsize) PAD_PATTERN s.myConfig.PadBytes_

/-- Debug stamping of `initialize_page`: after the page-link word, the left
align/header/pad run; then, for each block, the PAD region after its object,
followed (whenever the source loop continues, i.e. the next block still fits)
by the inter align/header/pad run leading to the next block.  The trailing
`set_mem_and_move(..., PAD_PATTERN, PadBytes_)` after the loop is the `else`
branch of the fold. -/
def stampPage (s : PoolState) (base : Nat) (offs : List Nat) : Nat → Nat :=
  let m1 := set_non_data_block_pattern s s.mem (base + ptrSize) s.myConfig.LeftAlignSize_
  offs.foldl
    (fun m o =>
      let m2 := memsetM m (base + o + s.myStats.ObjectSize_) PAD_PATTERN s.myConfig.PadBytes_
      if o + s.interPageSectionSize < s.myStats.PageSize_ then
        set_non_data_block_pattern s m2
          (base + o + s.myStats.ObjectSize_ + s.myConfig.PadBytes_) s.myConfig.InterAlignSize_
      else m2)
    m1

/-- initialize_page: pushes every block of the fresh page onto the free list
in ascending address order (`move_freelist`), so the head ends at the highest
address; in debug mode it stamps the align/header/pad patterns as it goes.
The source pushes the first block unconditionally; for any configuration with
at least one object per page that agrees with `blockOffsets`. -/
def init_page (s : PoolState) (base : Nat) : PoolState :=
  let offs := blockOffsets s.leftPageSectionSize s.interPageSectionSize s.myStats.PageSize_
  let mem' := if s.myConfig.DebugOn_ then stampPage s base offs else s.mem
  { s with mem := mem', FreeList_ := (offs.map (fun o => base + o)).reverse ++ s.FreeList_ }

/-- allocate_new_page: throws `E_NO_PAGES` when the page cap is reached (and
`E_NO_MEMORY` when the host allocator fails — the `hostOom` flag), both
before any mutation; otherwise obtains a fresh page, stamps it with
UNALLOCATED in debug mode, links it at the head of the page list, runs
`initialize_page`, and finally bumps `PagesInUse_` and `FreeObjects_`. -/
def allocate_new_page (s : PoolState) (hostOom : Bool) : Except OAErr PoolState :=
  if s.myConfig.MaxPages_ ≠ 0 ∧ s.myStats.PagesInUse_ = (s.myConfig.MaxPages_ : Int) then
    .error .E_NO_PAGES
  else if hostOom then .error .E_NO_MEMORY
  else
    let base := s.nextBase
    let mem1 := if s.myConfig.DebugOn_ then
        memsetM s.mem base UNALLOCATED_PATTERN s.myStats.PageSize_
      else s.mem
    let s1 : PoolState :=
      { s with mem := mem1, PageList_ := base :: s.PageList_,
               nextBase := base + pageStride s.myStats.PageSize_ }
    let s2 := init_page s1 base
    .ok { s2 with myStats :=
      { s2.myStats with
          PagesInUse_ := s2.myStats.PagesInUse_ + 1
          FreeObjects_ := s2.myStats.FreeObjects_ + (s.myConfig.ObjectsPerPage_ : Int) } }

/-- The ObjectAllocator constructor: the field computations of `initPool`
followed by the first `allocate_new_page()` (host allocation succeeding). -/
def mkPool (ObjectSize : Nat) (config : OAConfig) (initMem : Nat → Nat) :
    Except OAErr PoolState :=
  allocate_new_page (initPool ObjectSize config initMem) false

/-- put_on_freelist / move_freelist: push a block at the head of the
intrusive free list (the source stores the old head in the block's first
word; the link lives in the ghost list here). -/
def put_on_freelist (s : PoolState) (Object : Nat) : PoolState :=
  { s with FreeList_ := Object :: s.FreeList_ }

/-- The bookkeeping run after a successful allocation: `Allocations_++`,
`ObjectsInUse_++`, `FreeObjects_--`, and the `MostObjects_` high-water
update. -/
def allocCounters (st : OAStats) : OAStats :=
  let st1 := { st with
    Allocations_ := st.Allocations_ + 1
    ObjectsInUse_ := st.ObjectsInUse_ + 1
    FreeObjects_ := st.FreeObjects_ - 1 }
  if st1.MostObjects_ < st1.ObjectsInUse_ then
    { st1 with MostObjects_ := st1.ObjectsInUse_ }
  else st1

/-- The header switch of `Allocate`: starting from
`headerBlockIter = Object - PadBytes_ - HBlockInfo_.size_`, Extended zeroes
the user region, increments the little-endian u16 use counter and falls
through to Basic; Basic writes the (already incremented) `Allocations_`
as a u32 followed by an in-use flag byte of 1; External stores a fresh
`MemBlockInfo` record in the header slot; None does nothing. -/
def mark_header_used (s : PoolState) (Object : Nat) (label : Option String) : PoolState :=
  let cfg := s.myConfig
  let hsize := hblockSize cfg.HBlockType_ cfg.HBlockAdditional_
  let h := Object - cfg.PadBytes_ - hsize
  match cfg.HBlockType_ with
  | .hbExtended =>
    let m1 := memsetM s.mem h 0 cfg.HBlockAdditional_
    let counter := readU16 m1 (h + cfg.HBlockAdditional_)
    let m2 := writeBytesLE m1 (h + cfg.HBlockAdditional_) ((counter + 1) % 65536) 2
    let m3 := writeBytesLE m2 (h + cfg.HBlockAdditional_ + 2)
      (s.myStats.Allocations_.toNat % 4294967296) 4
    let m4 := memsetM m3 (h + cfg.HBlockAdditional_ + 2 + 4) 1 1
    { s with mem := m4 }
  | .hbBasic =>
    let m1 := writeBytesLE s.mem h (s.myStats.Allocations_.toNat % 4294967296) 4
    let m2 := memsetM m1 (h + 4) 1 1
    { s with mem := m2 }
  | .hbExternal =>
    { s with extMap := fun x =>
        if x = h then
          some { in_use := true, label := label,
                 alloc_num := s.myStats.Allocations_.toNat % 4294967296 }
        else s.extMap x }
  | .hbNone => s

/-- The tail of `Allocate` on the pool path: pop the free list head, run the
bookkeeping, mark the header used, and stamp the object ALLOCATED in debug
mode.  (On an empty free list the source dereferences a null pointer —
undefined; that case is unreachable whenever a page holds at least one
block.) -/
def popAndMark (s : PoolState) (label : Option String) : Except OAErr Nat × PoolState :=
  match s.FreeList_ with
  | [] => (.ok 0, s)
  | b :: rest =>
    let s1 := { s with FreeList_ := rest, myStats := allocCounters s.myStats }
    let s2 := mark_header_used s1 b label
    let mem' := if s2.myConfig.DebugOn_ then
        memsetM s2.mem b ALLOCATED_PATTERN s2.myStats.ObjectSize_
      else s2.mem
    (.ok b, { s2 with mem := mem' })

/-- The `UseCPPMemManager_` path of `Allocate`: a host allocation plus the
same bookkeeping (the source ignores the label: no header exists). -/
def hostAllocate (s : PoolState) : Except OAErr Nat × PoolState :=
  (.ok s.nextBase,
   { s with myStats := allocCounters s.myStats,
            nextBase := s.nextBase + pageStride s.myStats.ObjectSize_ })

/-- Allocate: the pass-through branch when `UseCPPMemManager_` (with
`E_NO_MEMORY` on host failure, before any bookkeeping); otherwise a new page
is allocated when the free list is empty (errors propagate with the state
untouched), then the free-list head is popped, counters bumped, header
marked and the block returned. -/
def Allocate (s : PoolState) (label : Option String) (hostOom : Bool) :
    Except OAErr Nat × PoolState :=
  if s.myConfig.UseCPPMemManager_ then
    if hostOom then (.error .E_NO_MEMORY, s) else hostAllocate s
  else if s.FreeList_.isEmpty then
    match allocate_new_page s hostOom with
    | .error e => (.error e, s)
    | .ok s1 => popAndMark s1 label
  else popAndMark s label

/-- is_object_in_free_list: for Basic/Extended read the in-use flag byte just
below the left padding (on the free list iff it is 0); for External
dereference the header slot's `MemBlockInfo` pointer and report its `in_use`
field when non-null (note the polarity: the source returns `in_use` itself);
a null External pointer and the None flavor fall back to walking the free
list. -/
def is_object_in_free_list (s : PoolState) (Object : Nat) : Bool :=
  match s.myConfig.HBlockType_ with
  | .hbBasic | .hbExtended => s.mem (Object - s.myConfig.PadBytes_ - 1) % 256 == 0
  | .hbExternal =>
    match s.extMap (Object - s.myConfig.PadBytes_ - ptrSize) with
    | some info => info.in_use
    | none => s.FreeList_.contains Object
  | .hbNone => s.FreeList_.contains Object

/-- check_double_free: when the object is wider than a pointer, the byte just
past the embedded link equals FREED exactly when the block was freed before;
otherwise fall back to the free-list walk.  Throws `E_MULTIPLE_FREE`. -/
def check_double_free (s : PoolState) (Object : Nat) : Except OAErr Unit :=
  if ptrSize < s.myStats.ObjectSize_ then
    if s.mem (Object + ptrSize) % 256 = FREED_PATTERN then .error .E_MULTIPLE_FREE
    else .ok ()
  else if is_object_in_free_list s Object then .error .E_MULTIPLE_FREE
  else .ok ()

/-- Intactness of `n` padding bytes starting at `a` (the source walks the
head padding forward and the tail padding backward; the result is the
same). -/
def padIntact (m : Nat → Nat) (a n : Nat) : Bool :=
  (List.range n).all (fun i => m (a + i) % 256 == PAD_PATTERN)

/-- check_corruption: nothing to check without padding; otherwise every byte
of the head padding must equal PAD, else `E_CORRUPTED_BLOCK`.  The tail loop
of the source starts at `objectEnd + PadBytes_ - 1` and walks backward while
the iterator differs from `objectEnd`, so it inspects only the
`PadBytes_ - 1` bytes strictly after `objectEnd` — the byte at `objectEnd`
itself is never read (with `PadBytes_ = 1` the tail is not checked at
all). -/
def check_corruption (s : PoolState) (Object : Nat) : Except OAErr Unit :=
  if s.myConfig.PadBytes_ = 0 then .ok ()
  else if ¬ padIntact s.mem (Object - s.myConfig.PadBytes_) s.myConfig.PadBytes_ then
    .error .E_CORRUPTED_BLOCK
  else if ¬ padIntact s.mem (Object + s.myStats.ObjectSize_ + 1)
      (s.myConfig.PadBytes_ - 1) then
    .error .E_CORRUPTED_BLOCK
  else .ok ()

/-- check_boundary: find the page strictly containing the address
(`E_BAD_ADDRESS` when none does); within it, the distance from the first
block must be a multiple of `interPageSectionSize`, else `E_BAD_BOUNDARY`.
The source computes the distance as a 64-bit pointer difference. -/
def check_boundary (s : PoolState) (Object : Nat) : Except OAErr Unit :=
  match s.PageList_.find? (fun base =>
      decide (base < Object) && decide (Object < base + s.myStats.PageSize_)) with
  | some base =>
    let firstBlock := base + s.leftPageSectionSize
    let blockDistance := (Object + 18446744073709551616 - firstBlock) % 18446744073709551616
    if blockDistance % s.interPageSectionSize ≠ 0 then .error .E_BAD_BOUNDARY else .ok ()
  | none => .error .E_BAD_ADDRESS

/-- The debug-mode guard sequence of `Free`: double free, corruption, page
boundary, in that order. -/
def freeChecks (s : PoolState) (Object : Nat) : Except OAErr Unit := do
  check_double_free s Object
  check_corruption s Object
  check_boundary s Object

/-- The header switch of `Free`: Extended zeroes the user region, skips the
use counter and falls through to Basic; Basic zeroes the allocation number
and the in-use flag; External destroys the heap record and zeroes the
pointer slot; None does nothing. -/
def mark_header_free (s : PoolState) (Object : Nat) : PoolState :=
  let cfg := s.myConfig
  let hsize := hblockSize cfg.HBlockType_ cfg.HBlockAdditional_
  let h := Object - cfg.PadBytes_ - hsize
  match cfg.HBlockType_ with
  | .hbExtended =>
    let m1 := memsetM s.mem h 0 cfg.HBlockAdditional_
    let m2 := memsetM m1 (h + cfg.HBlockAdditional_ + 2) 0 4
    let m3 := memsetM m2 (h + cfg.HBlockAdditional_ + 2 + 4) 0 1
    { s with mem := m3 }
  | .hbBasic =>
    let m1 := memsetM s.mem h 0 4
    let m2 := memsetM m1 (h + 4) 0 1
    { s with mem := m2 }
  | .hbExternal =>
    { s with mem := memsetM s.mem h 0 ptrSize,
             extMap := fun x => if x = h then none else s.extMap x }
  | .hbNone => s

/-- The mutating tail of `Free` on the pool path (after the debug checks
passed): stamp the object FREED in debug mode, mark the header free, push
the block onto the free list. -/
def doFree (s : PoolState) (Object : Nat) : PoolState :=
  let mem1 := if s.myConfig.DebugOn_ then
      memsetM s.mem Object FREED_PATTERN s.myStats.ObjectSize_
    else s.mem
  put_on_freelist (mark_header_free { s with mem := mem1 } Object) Object

/-- The counter updates shared by both branches of `Free`:
`Deallocations_++`, `FreeObjects_++`, `ObjectsInUse_--`. -/
def freeCounters (s : PoolState) : PoolState :=
  { s with myStats := { s.myStats with
      Deallocations_ := s.myStats.Deallocations_ + 1
      FreeObjects_ := s.myStats.FreeObjects_ + 1
      ObjectsInUse_ := s.myStats.ObjectsInUse_ - 1 } }

/-- Free: the pass-through branch hands the block back to the host; the pool
branch runs the debug guard sequence (errors propagate with the state
untouched), stamps/unmarks/pushes, and both branches end with the shared
counter updates. -/
def Free (s : PoolState) (Object : Nat) : Except OAErr Unit × PoolState :=
  if s.myConfig.UseCPPMemManager_ then
    (.ok (), freeCounters s)
  else
    match (if s.myConfig.DebugOn_ then freeChecks s Object else .ok ()) with
    | .error e => (.error e, s)
    | .ok _ => (.ok (), freeCounters (doFree s Object))

/-- The blocks of the page at `base`, in ascending address order. -/
def pageBlocks (s : PoolState) (base : Nat) : List Nat :=
  (blockOffsets s.leftPageSectionSize s.interPageSectionSize s.myStats.PageSize_).map
    (fun o => base + o)

/-- DumpMemoryInUse: walks every block of every page and hands to the
callback exactly the blocks for which `is_object_in_free_list` is false; the
returned counter is the length of this list. -/
def DumpMemoryInUse (s : PoolState) : List Nat :=
  (s.PageList_.map (fun base =>
    (pageBlocks s base).filter (fun b => ¬ is_object_in_free_list s b))).flatten

/-- ValidatePages: nothing with debug off or no padding; otherwise hands to
the callback every block whose padding fails `check_corruption` and counts
them. -/
def ValidatePages (s : PoolState) : List Nat :=
  if ¬ s.myConfig.DebugOn_ ∨ s.myConfig.PadBytes_ = 0 then []
  else
    (s.PageList_.map (fun base =>
      (pageBlocks s base).filter
        (fun b => match check_corruption s b with | .error _ => true | .ok _ => false))).flatten

/-- FreePage: unlinks from the free list every node that equals a block start
of the page (the source's two-pointer removal preserves the order of the
remaining nodes), then returns the page's memory to the host.  For External
headers the source passes the block start — not the header slot — to
`free_external_header`, reading the embedded free-list link as a
`MemBlockInfo` pointer (undefined behavior); no claim exercises that path. -/
def FreePage (s : PoolState) (base : Nat) : PoolState :=
  { s with FreeList_ := s.FreeList_.filter (fun blk => ¬ (pageBlocks s base).contains blk) }

/-- Emptiness test of `FreeEmptyPages`: every block of the page reports as
being on the free list. -/
def page_is_empty (s : PoolState) (base : Nat) : Bool :=
  (pageBlocks s base).all (fun b => is_object_in_free_list s b)

/-- The page-list walk of `FreeEmptyPages`, threading the state (the free
list shrinks as pages are released) and collecting the surviving pages in
order.  The source's `isPageEmpty` flag is initialized to true once, cleared
by the scan when it finds an in-use block, reset to true only in the release
branch and left untouched when the scan finds the page empty — so after the
first skipped page the flag stays false and every later page is skipped too:
a page is released exactly when its scan finds no in-use block AND the flag
was still true on entry.  `flag` carries that value.  Note the source
updates no stats counters here. -/
def freeEmptyPagesGo : PoolState → Bool → List Nat → Nat × List Nat × PoolState
  | s, _, [] => (0, [], s)
  | s, flag, base :: rest =>
    let flag1 := flag && page_is_empty s base
    if flag1 then
      let s1 := FreePage s base
      let (c, kept, s2) := freeEmptyPagesGo s1 true rest
      (c + 1, kept, s2)
    else
      let (c, kept, s2) := freeEmptyPagesGo s flag1 rest
      (c, base :: kept, s2)

/-- FreeEmptyPages: releases the maximal leading run of pages all of whose
blocks are on the free list (the stale `isPageEmpty` flag of the source
stops all releasing at the first non-empty page), unlinking them from the
page list, and returns how many pages were released. -/
def FreeEmptyPages (s : PoolState) : Nat × PoolState :=
  let (c, kept, s') := freeEmptyPagesGo s true s.PageList_
  (c, { s' with PageList_ := kept })

/-- SetDebugState: store the new debug flag in the configuration. -/
def SetDebugState (s : PoolState) (State : Bool) : PoolState :=
  { s with myConfig := { s.myConfig with DebugOn_ := State } }

/-- Runs `n` Allocates (no label, host memory available), `none` as soon as
one fails. -/
def allocRun (s : PoolState) : Nat → Option PoolState
  | 0 => some s
  | n + 1 =>
    match Allocate s none false with
    | (.ok _, s') => allocRun s' n
    | (.error _, _) => none

/-- The little-endian u16 use counter of an Extended header, at
`headerBlockIter + HBlockAdditional_` for
`headerBlockIter = Object - PadBytes_ - HBlockInfo_.size_`. -/
def extCounter (s : PoolState) (Object : Nat) : Nat :=
  readU16 s.mem (Object - s.myConfig.PadBytes_ -
    hblockSize HBlockType.hbExtended s.myConfig.HBlockAdditional_ + s.myConfig.HBlockAdditional_)

/-- Zero-initialized host memory, used by the concrete scenarios where the
initial contents do not matter. -/
def zmem : Nat → Nat := fun _ => 0

/-- Scenario configuration for the alignment claim: `alignment = 8`,
`object_size = 5`, four objects per page, one page, no padding, no header,
debug off, pool mode. -/
def c2cfg : OAConfig := ⟨false, false, 4, 1, 0, .hbNone, 0, 8, 0, 0⟩

/-- The pointer returned by the first `Allocate` on a fresh `c2cfg` pool. -/
def c2firstPtr : Option Nat :=
  (mkPool 5 c2cfg zmem).toOption.bind (fun s => (Allocate s none false).1.toOption)

/-- Scenario configuration with one object per page, one page, no padding,
no header, debug off, pool mode. -/
def c3cfg : OAConfig := ⟨false, false, 1, 1, 0, .hbNone, 0, 0, 0, 0⟩

/-- A fresh `c3cfg` pool (its single page holds one block, which starts on
the free list). -/
def c3s0 : PoolState := (mkPool 8 c3cfg zmem).toOption.getD (initPool 8 c3cfg zmem)

/-- Scenario configuration for the External-header dump claim: two objects
per page, one page, no padding, External header, debug on, pool mode. -/
def c4cfg : OAConfig := ⟨false, true, 2, 1, 0, .hbExternal, 0, 0, 0, 0⟩

/-- A fresh `c4cfg` pool. -/
def c4s0 : PoolState := (mkPool 8 c4cfg zmem).toOption.getD (initPool 8 c4cfg zmem)

/-- The `c4cfg` pool after one `Allocate` with label "foo" (which returned
block 48 of the two blocks 32 and 48). -/
def c4s1 : PoolState := (Allocate c4s0 (some "foo") false).2

/-- Scenario configuration with one 16-byte object per page, one page, no
padding, no header, debug on, pool mode. -/
def c5cfg : OAConfig := ⟨false, true, 1, 1, 0, .hbNone, 0, 0, 0, 0⟩

/-- A fresh `c5cfg` pool; its single block is at address 24. -/
def c5s0 : PoolState := (mkPool 16 c5cfg zmem).toOption.getD (initPool 16 c5cfg zmem)

/-- The `c5cfg` pool after allocating its block (address 24). -/
def c5s1 : PoolState := (Allocate c5s0 none false).2

/-- The `c5cfg` pool after allocating and freeing block 24 (a second
`Free 24` is a double free). -/
def c5s2 : PoolState := (Free c5s1 24).2

/-- Scenario configuration with two objects per page, one page, no padding,
no header, debug off, pool mode: capacity 2 objects. -/
def c6cfg : OAConfig := ⟨false, false, 2, 1, 0, .hbNone, 0, 0, 0, 0⟩

/-- A fresh `c6cfg` pool. -/
def c6s0 : PoolState := (mkPool 8 c6cfg zmem).toOption.getD (initPool 8 c6cfg zmem)

/-- Scenario configuration for the Extended use counter: one object per
page, unbounded pages, no padding, Extended header with no user region,
debug on, pool mode. -/
def c9cfg : OAConfig := ⟨false, true, 1, 0, 0, .hbExtended, 0, 0, 0, 0⟩

/-- A fresh `c9cfg` pool; its single block is at address 31 and its header
was zeroed by the debug page stamping. -/
def c9s0 : PoolState := (mkPool 16 c9cfg zmem).toOption.getD (initPool 16 c9cfg zmem)

/-- The `c9cfg` pool after allocating block 31. -/
def c9s1 : PoolState := (Allocate c9s0 none false).2

/-- Like `c9cfg` but with debug off, so a fresh page's header bytes keep the
host memory's indeterminate contents. -/
def c9badcfg : OAConfig := ⟨false, false, 1, 0, 0, .hbExtended, 0, 0, 0, 0⟩

/-- A fresh `c9badcfg` pool whose host memory initially holds byte 7
everywhere (one legal choice of the indeterminate `new[]` contents); its
single block is at address 31. -/
def c9bs0 : PoolState :=
  (mkPool 8 c9badcfg (fun _ => 7)).toOption.getD (initPool 8 c9badcfg (fun _ => 7))

/-- C2 (code bug): with `alignment = 8` and `object_size = 5` (no padding,
no header) the very first pointer `Allocate` returns is `54 = 16 + 8 + 3*10`
— the page base is 16-byte aligned, yet `54 mod 8 = 6`, not 0: the
`total % alignment` slack of the constructor does not align block starts. -/
theorem C2_first_alloc_misaligned : c2firstPtr = some 54 ∧ 54 % 8 = 6 := by decide

/-- C3 (code bug): on a fresh one-block pool, `FreeEmptyPages` releases the
page (returns 1, the page list and free list become empty) yet leaves
`PagesInUse_ = 1` and `FreeObjects_ = 1`: the source updates no counters
when it releases a page, so the stats no longer describe the pool. -/
theorem C3_fep_stats_unchanged :
    (FreeEmptyPages c3s0).1 = 1 ∧ (FreeEmptyPages c3s0).2.PageList_ = [] ∧
      (FreeEmptyPages c3s0).2.FreeList_ = [] ∧
      (FreeEmptyPages c3s0).2.myStats.PagesInUse_ = 1 ∧
      (FreeEmptyPages c3s0).2.myStats.FreeObjects_ = 1 := by decide

/-- C4 (code bug): with an External header, after one `Allocate` the pool
has one object in use, yet `DumpMemoryInUse` reports zero blocks:
`is_object_in_free_list` returns the External record's `in_use` field
un-negated, so in-use External blocks are skipped. -/
theorem C4_dump_external_zero :
    (DumpMemoryInUse c4s1).length = 0 ∧ c4s1.myStats.ObjectsInUse_ = 1 := by decide

/-- C9 (counterexample): with debug off a fresh page's Extended header keeps
the host memory's indeterminate bytes (here 7), so after the first
allocation of block 31 the u16 use counter reads 1800 = (7 + 256*7) + 1,
not 1. -/
theorem C9_counterexample :
    extCounter (Allocate c9bs0 none false).2 31 = 1800 ∧ (1800 : Nat) ≠ 1 := by decide

/-- C8 (counterexample): immediately after construction the pool has
`pages_in_use = 1` and a non-empty free list — the constructor calls
`allocate_new_page` — contradicting `pages_in_use = 0` and an empty free
list. -/
theorem C8_counterexample :
    (mkPool 8 c3cfg zmem).toOption.map
        (fun s => (s.myStats.PagesInUse_, s.FreeList_.isEmpty)) = some (1, false) ∧
      (1 : Int) ≠ 0 := by decide

/-- C1: the page size computed at pool construction equals
`next_ptr_size + left_align_size + objects_per_page * (header_size +
2*pad_bytes + object_size) + (objects_per_page - 1) * inter_align_size`,
with the alignment slacks as the constructor computes them. -/
theorem C1_page_size_formula (ObjectSize : Nat) (config : OAConfig) (initMem : Nat → Nat) :
    (initPool ObjectSize config initMem).myStats.PageSize_ =
      ptrSize + (initPool ObjectSize config initMem).myConfig.LeftAlignSize_ +
        config.ObjectsPerPage_ *
          (hblockSize config.HBlockType_ config.HBlockAdditional_ +
            2 * config.PadBytes_ + ObjectSize) +
        (config.ObjectsPerPage_ - 1) *
          (initPool ObjectSize config initMem).myConfig.InterAlignSize_ := by
  simp only [initPool]
  ring

/-- C10: SetDebugState stores the new debug flag and changes nothing else:
stats, free list, page list, memory, external headers, cached section sizes
and every other configuration field are untouched. -/
theorem C10_set_debug_frame (s : PoolState) (b : Bool) :
    (SetDebugState s b).myConfig.DebugOn_ = b ∧
      (SetDebugState s b).myStats = s.myStats ∧
      (SetDebugState s b).FreeList_ = s.FreeList_ ∧
      (SetDebugState s b).PageList_ = s.PageList_ ∧
      (SetDebugState s b).mem = s.mem ∧
      (SetDebugState s b).extMap = s.extMap ∧
      (SetDebugState s b).leftPageSectionSize = s.leftPageSectionSize ∧
      (SetDebugState s b).interPageSectionSize = s.interPageSectionSize ∧
      (SetDebugState s b).nextBase = s.nextBase ∧
      (SetDebugState s b).myConfig.UseCPPMemManager_ = s.myConfig.UseCPPMemManager_ ∧
      (SetDebugState s b).myConfig.ObjectsPerPage_ = s.myConfig.ObjectsPerPage_ ∧
      (SetDebugState s b).myConfig.MaxPages_ = s.myConfig.MaxPages_ ∧
      (SetDebugState s b).myConfig.PadBytes_ = s.myConfig.PadBytes_ ∧
      (SetDebugState s b).myConfig.HBlockType_ = s.myConfig.HBlockType_ ∧
      (SetDebugState s b).myConfig.HBlockAdditional_ = s.myConfig.HBlockAdditional_ ∧
      (SetDebugState s b).myConfig.Alignment_ = s.myConfig.Alignment_ ∧
      (SetDebugState s b).myConfig.LeftAlignSize_ = s.myConfig.LeftAlignSize_ ∧
      (SetDebugState s b).myConfig.InterAlignSize_ = s.myConfig.InterAlignSize_ := by
  refine ⟨rfl, rfl, rfl, rfl, rfl, rfl, rfl, rfl, rfl, rfl, rfl, rfl, rfl, rfl, rfl,
    rfl, rfl, rfl⟩

/-- popAndMark always reports success (the source would only fail here by
dereferencing a null free list, which is undefined). -/
lemma popAndMark_isOk (s : PoolState) (label : Option String) :
    ∃ b, (popAndMark s label).1 = Except.ok b := by
  cases h : s.FreeList_ with
  | nil => exact ⟨0, by simp [popAndMark, h]⟩
  | cons b rest => exact ⟨b, by simp [popAndMark, h]⟩

/-- C5: every error propagated out of Allocate or Free leaves the pool state
— stats counters, free list, page list, memory, headers — exactly as it was
before the call: the guards run before any mutation. -/
theorem C5_error_frame (s : PoolState) (label : Option String) (hostOom : Bool) (p : Nat) :
    (∀ e s', Allocate s label hostOom = (Except.error e, s') → s' = s) ∧
      (∀ e s', Free s p = (Except.error e, s') → s' = s) := by
  constructor
  · intro e s' h
    unfold Allocate at h
    split at h
    · split at h
      · exact (Prod.mk.injEq _ _ _ _ ▸ h).2.symm ▸ rfl
      · simp [hostAllocate] at h
    · split at h
      · split at h
        · exact ((Prod.mk.injEq _ _ _ _).mp h).2.symm
        · obtain ⟨b, hb⟩ := popAndMark_isOk _ label
          rw [Prod.ext_iff] at h
          rw [h.1] at hb
          simp at hb
      · obtain ⟨b, hb⟩ := popAndMark_isOk s label
        rw [Prod.ext_iff] at h
        rw [h.1] at hb
        simp at hb
  · intro e s' h
    unfold Free at h
    split at h
    · simp at h
    · split at h
      · exact ((Prod.mk.injEq _ _ _ _).mp h).2.symm
      · simp at h

/-- mark_header_used only writes to memory and the external-header map. -/
lemma mark_header_used_frame (s : PoolState) (o : Nat) (l : Option String) :
    (mark_header_used s o l).FreeList_ = s.FreeList_ ∧
      (mark_header_used s o l).PageList_ = s.PageList_ ∧
      (mark_header_used s o l).myConfig = s.myConfig ∧
      (mark_header_used s o l).myStats = s.myStats ∧
      (mark_header_used s o l).leftPageSectionSize = s.leftPageSectionSize ∧
      (mark_header_used s o l).interPageSectionSize = s.interPageSectionSize ∧
      (mark_header_used s o l).nextBase = s.nextBase := by
  cases h : s.myConfig.HBlockType_ <;> simp [mark_header_used, h]

/-- mark_header_free only writes to memory and the external-header map. -/
lemma mark_header_free_frame (s : PoolState) (o : Nat) :
    (mark_header_free s o).FreeList_ = s.FreeList_ ∧
      (mark_header_free s o).PageList_ = s.PageList_ ∧
      (mark_header_free s o).myConfig = s.myConfig ∧
      (mark_header_free s o).myStats = s.myStats ∧
      (mark_header_free s o).leftPageSectionSize = s.leftPageSectionSize ∧
      (mark_header_free s o).interPageSectionSize = s.interPageSectionSize ∧
      (mark_header_free s o).nextBase = s.nextBase := by
  cases h : s.myConfig.HBlockType_ <;> simp [mark_header_free, h]

/-- The allocation bookkeeping touches neither the page counter nor the
sizes. -/
lemma allocCounters_frame (st : OAStats) :
    (allocCounters st).PagesInUse_ = st.PagesInUse_ ∧
      (allocCounters st).PageSize_ = st.PageSize_ ∧
      (allocCounters st).ObjectSize_ = st.ObjectSize_ := by
  simp only [allocCounters]
  refine ⟨?_, ?_, ?_⟩ <;> (split <;> rfl)

/-- Popping a non-empty free list returns its head and leaves the page
counter, configuration and layout fields unchanged. -/
lemma popAndMark_cons (s : PoolState) (label : Option String) (b : Nat) (rest : List Nat)
    (hfl : s.FreeList_ = b :: rest) :
    (popAndMark s label).1 = Except.ok b ∧
      (popAndMark s label).2.FreeList_ = rest ∧
      (popAndMark s label).2.myConfig = s.myConfig ∧
      (popAndMark s label).2.myStats.PagesInUse_ = s.myStats.PagesInUse_ ∧
      (popAndMark s label).2.myStats.PageSize_ = s.myStats.PageSize_ ∧
      (popAndMark s label).2.leftPageSectionSize = s.leftPageSectionSize ∧
      (popAndMark s label).2.interPageSectionSize = s.interPageSectionSize := by
  have h1 := mark_header_used_frame
    { s with FreeList_ := rest, myStats := allocCounters s.myStats } b label
  have h2 := allocCounters_frame s.myStats
  obtain ⟨f1, f2, f3, f4, f5, f6, f7⟩ := h1
  obtain ⟨g1, g2, g3⟩ := h2
  simp [popAndMark, hfl, f1, f3, f4, f5, f6, g1, g2]

/-- When the free list is non-empty, Allocate takes no new page, pops the
head and returns it; page counter, configuration and layout fields are
unchanged. -/
lemma Allocate_pop (s : PoolState) (label : Option String) (hostOom : Bool)
    (b : Nat) (rest : List Nat)
    (hcpp : s.myConfig.UseCPPMemManager_ = false) (hfl : s.FreeList_ = b :: rest) :
    (Allocate s label hostOom).1 = Except.ok b ∧
      (Allocate s label hostOom).2.FreeList_ = rest ∧
      (Allocate s label hostOom).2.myConfig = s.myConfig ∧
      (Allocate s label hostOom).2.myStats.PagesInUse_ = s.myStats.PagesInUse_ ∧
      (Allocate s label hostOom).2.myStats.PageSize_ = s.myStats.PageSize_ ∧
      (Allocate s label hostOom).2.leftPageSectionSize = s.leftPageSectionSize ∧
      (Allocate s label hostOom).2.interPageSectionSize = s.interPageSectionSize := by
  have hpop := popAndMark_cons s label b rest hfl
  have hne : s.FreeList_.isEmpty = false := by simp [hfl]
  simpa [Allocate, hcpp, hne] using hpop

/-- A successful pool-mode Free is exactly the mutating tail applied to the
original state. -/
lemma Free_ok_shape (s : PoolState) (p : Nat)
    (hcpp : s.myConfig.UseCPPMemManager_ = false) (hok : (Free s p).1 = Except.ok ()) :
    Free s p = (Except.ok (), freeCounters (doFree s p)) := by
  unfold Free at hok ⊢
  rw [hcpp] at hok ⊢
  simp only [Bool.false_eq_true, if_false] at hok ⊢
  split at hok
  · simp at hok
  · rfl

/-- A successful pool-mode Free pushes the freed block at the head of the
free list and keeps the configuration. -/
lemma Free_ok_freelist (s : PoolState) (p : Nat)
    (hcpp : s.myConfig.UseCPPMemManager_ = false) (hok : (Free s p).1 = Except.ok ()) :
    (Free s p).2.FreeList_ = p :: s.FreeList_ ∧ (Free s p).2.myConfig = s.myConfig := by
  rw [Free_ok_shape s p hcpp hok]
  have h1 := mark_header_free_frame
    { s with mem := if s.myConfig.DebugOn_ then
        memsetM s.mem p FREED_PATTERN s.myStats.ObjectSize_ else s.mem } p
  refine ⟨?_, ?_⟩ <;>
    simp [freeCounters, doFree, put_on_freelist, h1.1, h1.2.2.1]

/-- C7: the free list is LIFO — `Free p` pushes `p` at the head, so the
`Allocate` that immediately follows a successful pool-mode `Free p` returns
`p` again. -/
theorem C7_lifo (s : PoolState) (p : Nat) (label : Option String)
    (hcpp : s.myConfig.UseCPPMemManager_ = false)
    (hok : (Free s p).1 = Except.ok ()) :
    (Allocate ((Free s p).2) label false).1 = Except.ok p := by
  obtain ⟨hfl, hcfg⟩ := Free_ok_freelist s p hcpp hok
  exact (Allocate_pop ((Free s p).2) label false p s.FreeList_
    (by rw [hcfg]; exact hcpp) hfl).1

/-- C7 witness: on the concrete one-block pool, freeing block 24 and then
allocating returns 24 again. -/
theorem C7_lifo_witness : (Allocate ((Free c5s1 24).2) none false).1 = Except.ok 24 :=
  C7_lifo c5s1 24 none (by decide) (by rfl)

/-- C5 witness: the double free of block 24 on the concrete pool raises
`E_MULTIPLE_FREE` and, by the error-frame theorem, leaves the state exactly
as before the call. -/
theorem C5_error_frame_witness :
    (Free c5s2 24).2 = c5s2 ∧ (Free c5s2 24).1 = Except.error OAErr.E_MULTIPLE_FREE := by
  have h1 : (Free c5s2 24).1 = Except.error OAErr.E_MULTIPLE_FREE := by rfl
  refine ⟨(C5_error_frame c5s2 none false 24).2 OAErr.E_MULTIPLE_FREE (Free c5s2 24).2 ?_, h1⟩
  rw [← h1]

/-- Arithmetic core of the block count: with the section sizes and page size
computed by the constructor, the per-block loops visit exactly `OPP` blocks
(the page is the left section, `OPP - 1` inter sections, one object and one
trailing pad region). -/
lemma blockOffsets_len (hs pad obj L I OPP : Nat) (hobj : 1 ≤ obj) (hOPP : 1 ≤ OPP) :
    (blockOffsets (hs + pad + ptrSize + L) (hs + pad * 2 + obj + I)
      (OPP * obj + OPP * pad * 2 + hs * OPP + (L + I * (OPP - 1)) + ptrSize)).length
      = OPP := by
  obtain ⟨m, rfl⟩ : ∃ m, OPP = 1 + m := ⟨OPP - 1, by omega⟩
  have hipos : 0 < hs + pad * 2 + obj + I := by omega
  unfold blockOffsets
  rw [if_neg (by omega)]
  simp only [List.length_map, List.length_range]
  have hsub : (1 + m) * obj + (1 + m) * pad * 2 + hs * (1 + m) + (L + I * ((1 + m) - 1))
      + ptrSize - (hs + pad + ptrSize + L)
      = m * (hs + pad * 2 + obj + I) + (obj + pad) := by
    have h0 : (1 + m) - 1 = m := by omega
    rw [h0]
    have hexp : (1 + m) * obj + (1 + m) * pad * 2 + hs * (1 + m) + (L + I * m) + ptrSize
        = (hs + pad + ptrSize + L) + (m * (hs + pad * 2 + obj + I) + (obj + pad)) := by
      ring
    rw [hexp, Nat.add_sub_cancel_left]
  rw [hsub]
  have h1 : m * (hs + pad * 2 + obj + I) + (obj + pad) + (hs + pad * 2 + obj + I) - 1
      = (obj + pad + (hs + pad * 2 + obj + I) - 1) + m * (hs + pad * 2 + obj + I) := by
    generalize m * (hs + pad * 2 + obj + I) = t
    omega
  rw [h1, Nat.add_mul_div_right _ _ hipos]
  have h2 : (obj + pad + (hs + pad * 2 + obj + I) - 1) / (hs + pad * 2 + obj + I) = 1 := by
    apply Nat.div_eq_of_lt_le <;> omega
  rw [h2]

/-- A freshly constructed pool's layout yields exactly `ObjectsPerPage_`
blocks per page. -/
lemma numBlocks_initPool (ObjectSize : Nat) (config : OAConfig) (im : Nat → Nat)
    (hobj : 1 ≤ ObjectSize) (hOPP : 1 ≤ config.ObjectsPerPage_) :
    numBlocks (initPool ObjectSize config im) = config.ObjectsPerPage_ :=
  blockOffsets_len (hblockSize config.HBlockType_ config.HBlockAdditional_)
    config.PadBytes_ ObjectSize _ _ config.ObjectsPerPage_ hobj hOPP

/-- When the page cap is not reached and the host has memory, a page
allocation succeeds, adds one page, pushes one page's worth of blocks onto
the free list and preserves configuration and layout. -/
lemma allocate_new_page_ok (s : PoolState)
    (hguard : ¬(s.myConfig.MaxPages_ ≠ 0 ∧
      s.myStats.PagesInUse_ = (s.myConfig.MaxPages_ : Int))) :
    ∃ s', allocate_new_page s false = .ok s' ∧
      s'.FreeList_.length = numBlocks s + s.FreeList_.length ∧
      s'.myStats.PagesInUse_ = s.myStats.PagesInUse_ + 1 ∧
      s'.myConfig = s.myConfig ∧
      s'.myStats.PageSize_ = s.myStats.PageSize_ ∧
      s'.leftPageSectionSize = s.leftPageSectionSize ∧
      s'.interPageSectionSize = s.interPageSectionSize := by
  unfold allocate_new_page
  rw [if_neg hguard]
  refine ⟨_, rfl, ?_, ?_, ?_, ?_, ?_, ?_⟩ <;>
    simp [init_page, numBlocks, Nat.add_comm]

/-- Construction always succeeds (the `E_NO_PAGES` guard cannot fire with
zero pages in use) and yields one page whose blocks all sit on the free
list. -/
lemma mkPool_ok (ObjectSize : Nat) (config : OAConfig) (im : Nat → Nat)
    (hobj : 1 ≤ ObjectSize) (hOPP : 1 ≤ config.ObjectsPerPage_) :
    ∃ s0, mkPool ObjectSize config im = .ok s0 ∧
      s0.myConfig = (initPool ObjectSize config im).myConfig ∧
      s0.myConfig.UseCPPMemManager_ = config.UseCPPMemManager_ ∧
      s0.myConfig.ObjectsPerPage_ = config.ObjectsPerPage_ ∧
      s0.myConfig.MaxPages_ = config.MaxPages_ ∧
      s0.myStats.PagesInUse_ = 1 ∧
      s0.FreeList_.length = config.ObjectsPerPage_ ∧
      numBlocks s0 = config.ObjectsPerPage_ := by
  have hguard : ¬((initPool ObjectSize config im).myConfig.MaxPages_ ≠ 0 ∧
      (initPool ObjectSize config im).myStats.PagesInUse_ =
        ((initPool ObjectSize config im).myConfig.MaxPages_ : Int)) := by
    rintro ⟨hne, heq⟩
    have h0 : (initPool ObjectSize config im).myStats.PagesInUse_ = 0 := rfl
    rw [h0] at heq
    exact hne (by exact_mod_cast heq.symm)
  obtain ⟨s0, hok, hlen, hpages, hcfg, hpg, hleft, hinter⟩ :=
    allocate_new_page_ok (initPool ObjectSize config im) hguard
  have hnb : numBlocks (initPool ObjectSize config im) = config.ObjectsPerPage_ :=
    numBlocks_initPool ObjectSize config im hobj hOPP
  refine ⟨s0, hok, hcfg, ?_, ?_, ?_, ?_, ?_, ?_⟩
  · rw [hcfg]; rfl
  · rw [hcfg]; rfl
  · rw [hcfg]; rfl
  · rw [hpages]; rfl
  · rw [hlen, hnb]; simp [initPool]
  · unfold numBlocks
    rw [hleft, hinter, hpg]
    exact hnb

/-- popAndMark never changes the page counter (on an empty free list it
returns the state unchanged; otherwise `popAndMark_cons` applies). -/
lemma popAndMark_pages (s : PoolState) (label : Option String) :
    (popAndMark s label).2.myStats.PagesInUse_ = s.myStats.PagesInUse_ := by
  cases hfl : s.FreeList_ with
  | nil => simp [popAndMark, hfl]
  | cons b rest => exact (popAndMark_cons s label b rest hfl).2.2.2.1

/-- C8 (amended): constructing the pool immediately allocates one page —
after `new(object_size, config)` the pool has `pages_in_use = 1` and the
free list holds `objects_per_page` blocks; thereafter pages are created
exactly on demand: an `Allocate` that finds the free list non-empty adds no
page, one that finds it empty adds exactly one page when the `max_pages`
limit permits (`MaxPages_ = 0`, or `PagesInUse_` below the cap), and when
the cap is reached it adds no page and fails with `E_NO_PAGES`. -/
theorem C8_amended (ObjectSize : Nat) (config : OAConfig) (im : Nat → Nat)
    (hobj : 1 ≤ ObjectSize) (hOPP : 1 ≤ config.ObjectsPerPage_) :
    (∃ s0, mkPool ObjectSize config im = .ok s0 ∧ s0.myStats.PagesInUse_ = 1 ∧
      s0.FreeList_.length = config.ObjectsPerPage_) ∧
    (∀ (t : PoolState) (b : Nat) (rest : List Nat) (label : Option String) (oom : Bool),
      t.myConfig.UseCPPMemManager_ = false → t.FreeList_ = b :: rest →
      (Allocate t label oom).2.myStats.PagesInUse_ = t.myStats.PagesInUse_) ∧
    (∀ (t : PoolState) (label : Option String),
      t.myConfig.UseCPPMemManager_ = false → t.FreeList_ = [] →
      ¬(t.myConfig.MaxPages_ ≠ 0 ∧
        t.myStats.PagesInUse_ = (t.myConfig.MaxPages_ : Int)) →
      (Allocate t label false).2.myStats.PagesInUse_ = t.myStats.PagesInUse_ + 1) ∧
    (∀ (t : PoolState) (label : Option String),
      t.myConfig.UseCPPMemManager_ = false → t.FreeList_ = [] →
      t.myConfig.MaxPages_ ≠ 0 →
      t.myStats.PagesInUse_ = (t.myConfig.MaxPages_ : Int) →
      Allocate t label false = (Except.error OAErr.E_NO_PAGES, t)) := by
  refine ⟨?_, ?_, ?_, ?_⟩
  · obtain ⟨s0, hok, _, _, _, _, hpages, hlen, _⟩ := mkPool_ok ObjectSize config im hobj hOPP
    exact ⟨s0, hok, hpages, hlen⟩
  · intro t b rest label oom hcpp hfl
    exact (Allocate_pop t label oom b rest hcpp hfl).2.2.2.1
  · intro t label hcpp hfl hguard
    obtain ⟨s1, hanp, hlen1, hpg1, hcfg1, hps1, hl1, hi1⟩ := allocate_new_page_ok t hguard
    have hAe : Allocate t label false = popAndMark s1 label := by
      simp [Allocate, hcpp, hfl, hanp]
    rw [hAe, popAndMark_pages s1 label, hpg1]
  · intro t label hcpp hfl hne heqP
    have hanp : allocate_new_page t false = .error .E_NO_PAGES := by
      unfold allocate_new_page
      rw [if_pos ⟨hne, heqP⟩]
    simp [Allocate, hcpp, hfl, hanp]

/-- C8 amended witness: the concrete one-block pool is constructed with one
page and one free block, and the three on-demand rules instantiated. -/
theorem C8_amended_witness :
    (∃ s0, mkPool 8 c3cfg zmem = .ok s0 ∧ s0.myStats.PagesInUse_ = 1 ∧
      s0.FreeList_.length = c3cfg.ObjectsPerPage_) ∧
    (∀ (t : PoolState) (b : Nat) (rest : List Nat) (label : Option String) (oom : Bool),
      t.myConfig.UseCPPMemManager_ = false → t.FreeList_ = b :: rest →
      (Allocate t label oom).2.myStats.PagesInUse_ = t.myStats.PagesInUse_) ∧
    (∀ (t : PoolState) (label : Option String),
      t.myConfig.UseCPPMemManager_ = false → t.FreeList_ = [] →
      ¬(t.myConfig.MaxPages_ ≠ 0 ∧
        t.myStats.PagesInUse_ = (t.myConfig.MaxPages_ : Int)) →
      (Allocate t label false).2.myStats.PagesInUse_ = t.myStats.PagesInUse_ + 1) ∧
    (∀ (t : PoolState) (label : Option String),
      t.myConfig.UseCPPMemManager_ = false → t.FreeList_ = [] →
      t.myConfig.MaxPages_ ≠ 0 →
      t.myStats.PagesInUse_ = (t.myConfig.MaxPages_ : Int) →
      Allocate t label false = (Except.error OAErr.E_NO_PAGES, t)) :=
  C8_amended 8 c3cfg zmem (by decide) (by decide)

/-- Reading outside the written interval of a memset sees the old memory. -/
lemma memsetM_out (m : Nat → Nat) (a v n x : Nat) (h : x < a ∨ a + n ≤ x) :
    memsetM m a v n x = m x := by
  unfold memsetM
  rw [if_neg]
  omega

/-- Reading outside the written interval of a memcpy sees the old memory. -/
lemma writeBytesLE_out (m : Nat → Nat) (a v n x : Nat) (h : x < a ∨ a + n ≤ x) :
    writeBytesLE m a v n x = m x := by
  unfold writeBytesLE
  rw [if_neg]
  omega

/-- Reading back a just-written u16 yields the written value. -/
lemma readU16_writeBytesLE (m : Nat → Nat) (a v : Nat) (hv : v < 65536) :
    readU16 (writeBytesLE m a v 2) a = v := by
  unfold readU16 writeBytesLE
  norm_num
  omega

/-- A u16 read only depends on its two bytes. -/
lemma readU16_congr (m m' : Nat → Nat) (a : Nat)
    (h0 : m' a = m a) (h1 : m' (a + 1) = m (a + 1)) : readU16 m' a = readU16 m a := by
  unfold readU16
  rw [h0, h1]

/-- The Extended use counter sits at `Object - PadBytes_ - 7` whenever the
block address is large enough for the header to fit below it. -/
lemma extCounter_addr (s : PoolState) (b : Nat)
    (hb : s.myConfig.PadBytes_ + s.myConfig.HBlockAdditional_ + 7 ≤ b) :
    extCounter s b = readU16 s.mem (b - s.myConfig.PadBytes_ - 7) := by
  unfold extCounter
  simp only [hblockSize]
  congr 1
  omega

/-- Marking an Extended header used increments its u16 use counter by one,
modulo 2^16: the user-region clear, the allocation-number write, the flag
write all miss the counter's two bytes. -/
lemma mark_used_counter (u : PoolState) (b : Nat) (label : Option String)
    (htype : u.myConfig.HBlockType_ = .hbExtended)
    (hb : u.myConfig.PadBytes_ + u.myConfig.HBlockAdditional_ + 7 ≤ b) :
    readU16 (mark_header_used u b label).mem (b - u.myConfig.PadBytes_ - 7) =
      (readU16 u.mem (b - u.myConfig.PadBytes_ - 7) + 1) % 65536 := by
  unfold mark_header_used
  simp only [htype, hblockSize]
  set pad := u.myConfig.PadBytes_ with hpad
  set add := u.myConfig.HBlockAdditional_ with hadd
  set h := b - pad - (add + 2 + 5) with hh
  set ca := b - pad - 7 with hca
  have hcaeq : h + add = ca := by omega
  set m1 := memsetM u.mem h 0 add with hm1
  have hr1 : readU16 m1 ca = readU16 u.mem ca := by
    apply readU16_congr <;> (apply memsetM_out; omega)
  set v := (readU16 m1 (h + add) + 1) % 65536 with hv
  set m2 := writeBytesLE m1 (h + add) v 2 with hm2
  set m3 := writeBytesLE m2 (h + add + 2) (u.myStats.Allocations_.toNat % 4294967296) 4
    with hm3
  set m4 := memsetM m3 (h + add + 2 + 4) 1 1 with hm4
  show readU16 m4 ca = _
  have hr4 : readU16 m4 ca = readU16 m3 ca := by
    apply readU16_congr <;> (apply memsetM_out; omega)
  have hr3 : readU16 m3 ca = readU16 m2 ca := by
    apply readU16_congr <;> (apply writeBytesLE_out; omega)
  have hr2 : readU16 m2 ca = v := by
    rw [hcaeq] at hm2
    rw [hm2]
    exact readU16_writeBytesLE m1 ca v (Nat.mod_lt _ (by norm_num))
  rw [hr4, hr3, hr2, hv, hcaeq, hr1]

/-- Marking an Extended header free leaves its u16 use counter untouched:
the cleared regions skip the counter's two bytes. -/
lemma mark_free_counter (u : PoolState) (p : Nat)
    (htype : u.myConfig.HBlockType_ = .hbExtended)
    (hp : u.myConfig.PadBytes_ + u.myConfig.HBlockAdditional_ + 7 ≤ p) :
    readU16 (mark_header_free u p).mem (p - u.myConfig.PadBytes_ - 7) =
      readU16 u.mem (p - u.myConfig.PadBytes_ - 7) := by
  unfold mark_header_free
  simp only [htype, hblockSize]
  set pad := u.myConfig.PadBytes_ with hpad
  set add := u.myConfig.HBlockAdditional_ with hadd
  set h := p - pad - (add + 2 + 5) with hh
  set ca := p - pad - 7 with hca
  set m1 := memsetM u.mem h 0 add with hm1
  set m2 := memsetM m1 (h + add + 2) 0 4 with hm2
  set m3 := memsetM m2 (h + add + 2 + 4) 0 1 with hm3
  show readU16 m3 ca = _
  have hr3 : readU16 m3 ca = readU16 m2 ca := by
    apply readU16_congr <;> (apply memsetM_out; omega)
  have hr2 : readU16 m2 ca = readU16 m1 ca := by
    apply readU16_congr <;> (apply memsetM_out; omega)
  have hr1 : readU16 m1 ca = readU16 u.mem ca := by
    apply readU16_congr <;> (apply memsetM_out; omega)
  rw [hr3, hr2, hr1]

/-- C9 (amended): the Extended u16 use counter of a block is incremented by
exactly one (mod 2^16) on each allocate of that block and is left unchanged
by a successful free; it therefore equals n after the nth allocation only
when the header started from zero (debug-mode page stamping), not for
arbitrary initial page contents. -/
theorem C9_amended (s t : PoolState) (b p : Nat) (rest : List Nat) (label : Option String)
    (hcpp : s.myConfig.UseCPPMemManager_ = false)
    (htype : s.myConfig.HBlockType_ = .hbExtended)
    (hfl : s.FreeList_ = b :: rest)
    (hb : s.myConfig.PadBytes_ + s.myConfig.HBlockAdditional_ + 7 ≤ b)
    (hcpp2 : t.myConfig.UseCPPMemManager_ = false)
    (htype2 : t.myConfig.HBlockType_ = .hbExtended)
    (hp : t.myConfig.PadBytes_ + t.myConfig.HBlockAdditional_ + 7 ≤ p)
    (hok : (Free t p).1 = Except.ok ()) :
    extCounter (Allocate s label false).2 b = (extCounter s b + 1) % 65536 ∧
      extCounter (Free t p).2 p = extCounter t p := by
  constructor
  · have hne : s.FreeList_.isEmpty = false := by simp [hfl]
    have hA : (Allocate s label false).2 = (popAndMark s label).2 := by
      simp [Allocate, hcpp, hne]
    set s1 : PoolState := { s with FreeList_ := rest, myStats := allocCounters s.myStats }
      with hs1
    have hP : (popAndMark s label).2 =
        { mark_header_used s1 b label with
          mem := if (mark_header_used s1 b label).myConfig.DebugOn_ then
              memsetM (mark_header_used s1 b label).mem b ALLOCATED_PATTERN
                (mark_header_used s1 b label).myStats.ObjectSize_
            else (mark_header_used s1 b label).mem } := by
      simp [popAndMark, hfl]
    have hcfgM := (mark_header_used_frame s1 b label).2.2.1
    have hcfg1 : s1.myConfig = s.myConfig := rfl
    rw [hA, hP]
    have hbb : (mark_header_used s1 b label).myConfig.PadBytes_ +
        (mark_header_used s1 b label).myConfig.HBlockAdditional_ + 7 ≤ b := by
      rw [hcfgM, hcfg1]; exact hb
    have haddr1 : extCounter
        { mark_header_used s1 b label with
          mem := if (mark_header_used s1 b label).myConfig.DebugOn_ then
              memsetM (mark_header_used s1 b label).mem b ALLOCATED_PATTERN
                (mark_header_used s1 b label).myStats.ObjectSize_
            else (mark_header_used s1 b label).mem } b =
        readU16 (if (mark_header_used s1 b label).myConfig.DebugOn_ then
              memsetM (mark_header_used s1 b label).mem b ALLOCATED_PATTERN
                (mark_header_used s1 b label).myStats.ObjectSize_
            else (mark_header_used s1 b label).mem)
          (b - (mark_header_used s1 b label).myConfig.PadBytes_ - 7) :=
      extCounter_addr _ b hbb
    rw [haddr1, hcfgM, hcfg1]
    have hmem : ∀ x, x < b →
        (if (mark_header_used s1 b label).myConfig.DebugOn_ then
            memsetM (mark_header_used s1 b label).mem b ALLOCATED_PATTERN
              (mark_header_used s1 b label).myStats.ObjectSize_
          else (mark_header_used s1 b label).mem) x =
        (mark_header_used s1 b label).mem x := by
      intro x hx
      split
      · exact memsetM_out _ _ _ _ _ (Or.inl hx)
      · rfl
    have hread : readU16
        (if (mark_header_used s1 b label).myConfig.DebugOn_ then
            memsetM (mark_header_used s1 b label).mem b ALLOCATED_PATTERN
              (mark_header_used s1 b label).myStats.ObjectSize_
          else (mark_header_used s1 b label).mem)
        (b - s.myConfig.PadBytes_ - 7) =
        readU16 (mark_header_used s1 b label).mem (b - s.myConfig.PadBytes_ - 7) := by
      apply readU16_congr <;> (apply hmem; omega)
    rw [hcfgM, hcfg1] at hread
    rw [hread]
    have hmk := mark_used_counter s1 b label (by rw [hcfg1]; exact htype)
      (by rw [hcfg1]; exact hb)
    rw [hcfg1] at hmk
    rw [hmk]
    have hs1mem : s1.mem = s.mem := rfl
    rw [hs1mem, ← extCounter_addr s b hb]
  · rw [Free_ok_shape t p hcpp2 hok]
    set t1 : PoolState :=
      { t with mem :=
          if t.myConfig.DebugOn_ then memsetM t.mem p FREED_PATTERN t.myStats.ObjectSize_
          else t.mem } with ht1
    have hcfgF := (mark_header_free_frame t1 p).2.2.1
    have hcfg1 : t1.myConfig = t.myConfig := rfl
    have hshape : (freeCounters (doFree t p)).mem = (mark_header_free t1 p).mem := by
      simp [freeCounters, doFree, put_on_freelist]
    have hshapec : (freeCounters (doFree t p)).myConfig = t.myConfig := by
      simp [freeCounters, doFree, put_on_freelist, hcfgF, hcfg1]
    have hpp : (freeCounters (doFree t p)).myConfig.PadBytes_ +
        (freeCounters (doFree t p)).myConfig.HBlockAdditional_ + 7 ≤ p := by
      rw [hshapec]; exact hp
    rw [extCounter_addr _ p hpp, hshape, hshapec]
    have hmk := mark_free_counter t1 p (by rw [hcfg1]; exact htype2)
      (by rw [hcfg1]; exact hp)
    rw [hcfg1] at hmk
    rw [hmk]
    have ht1mem : ∀ x, x < p → t1.mem x = t.mem x := by
      intro x hx
      show (if t.myConfig.DebugOn_ then
          memsetM t.mem p FREED_PATTERN t.myStats.ObjectSize_ else t.mem) x = t.mem x
      split
      · exact memsetM_out _ _ _ _ _ (Or.inl hx)
      · rfl
    have hrr : readU16 t1.mem (p - t.myConfig.PadBytes_ - 7) =
        readU16 t.mem (p - t.myConfig.PadBytes_ - 7) := by
      apply readU16_congr <;> (apply ht1mem; omega)
    rw [hrr, ← extCounter_addr t p hp]

/-- C9 amended witness: on the concrete Extended pool, allocating block 31
bumps its counter by one and freeing it leaves the counter alone. -/
theorem C9_amended_witness :
    extCounter (Allocate c9s0 none false).2 31 = (extCounter c9s0 31 + 1) % 65536 ∧
      extCounter (Free c9s1 31).2 31 = extCounter c9s1 31 :=
  C9_amended c9s0 c9s1 31 31 [] none (by decide) (by decide) (by decide) (by decide)
    (by decide) (by decide) (by decide) (by rfl)

/-- numBlocks only depends on the two section sizes and the page size. -/
lemma numBlocks_congr (s s' : PoolState)
    (h1 : s'.leftPageSectionSize = s.leftPageSectionSize)
    (h2 : s'.interPageSectionSize = s.interPageSectionSize)
    (h3 : s'.myStats.PageSize_ = s.myStats.PageSize_) : numBlocks s' = numBlocks s := by
  unfold numBlocks
  rw [h1, h2, h3]

/-- Invariant maintained across a run of `k` successful allocations from a
fresh pool: the relevant configuration fields are those of `cfg`, the layout
yields `ObjectsPerPage_` blocks per page, the blocks of the `PagesInUse_`
pages are split between the `k` live ones and the free list, and the page
count respects the cap. -/
def AllocInv (cfg : OAConfig) (k : Nat) (s : PoolState) : Prop :=
  s.myConfig.UseCPPMemManager_ = cfg.UseCPPMemManager_ ∧
  s.myConfig.ObjectsPerPage_ = cfg.ObjectsPerPage_ ∧
  s.myConfig.MaxPages_ = cfg.MaxPages_ ∧
  numBlocks s = cfg.ObjectsPerPage_ ∧
  s.myStats.PagesInUse_ * (cfg.ObjectsPerPage_ : Int)
    = (k : Int) + (s.FreeList_.length : Int) ∧
  (cfg.MaxPages_ ≠ 0 → s.myStats.PagesInUse_ ≤ (cfg.MaxPages_ : Int)) ∧
  0 ≤ s.myStats.PagesInUse_

/-- One allocation step preserves the invariant as long as capacity remains
(either `MaxPages_ = 0` or fewer than `MaxPages_ * ObjectsPerPage_` blocks
are live). -/
lemma AllocInv_step (cfg : OAConfig) (k : Nat) (s : PoolState)
    (hOPP : 1 ≤ cfg.ObjectsPerPage_) (hcpp : cfg.UseCPPMemManager_ = false)
    (hinv : AllocInv cfg k s)
    (hroom : cfg.MaxPages_ = 0 ∨ k + 1 ≤ cfg.MaxPages_ * cfg.ObjectsPerPage_) :
    ∃ b, Allocate s none false = (Except.ok b, (Allocate s none false).2) ∧
      AllocInv cfg (k + 1) (Allocate s none false).2 := by
  obtain ⟨hc1, hc2, hc3, hnb, heq, hbound, hpos⟩ := hinv
  have hcpps : s.myConfig.UseCPPMemManager_ = false := by rw [hc1]; exact hcpp
  cases hfl : s.FreeList_ with
  | cons b rest =>
    obtain ⟨h1, h2, h3, h4, h5, h6, h7⟩ := Allocate_pop s none false b rest hcpps hfl
    have hpair : Allocate s none false = (Except.ok b, (Allocate s none false).2) := by
      rw [← h1]
    refine ⟨b, hpair, ?_, ?_, ?_, ?_, ?_, ?_, ?_⟩
    · rw [h3]; exact hc1
    · rw [h3]; exact hc2
    · rw [h3]; exact hc3
    · rw [numBlocks_congr s _ h6 h7 h5]; exact hnb
    · rw [h4, h2]
      rw [hfl] at heq
      simp only [List.length_cons] at heq
      push_cast at heq ⊢
      rw [heq]
      ring
    · rw [h4]; exact hbound
    · rw [h4]; exact hpos
  | nil =>
    rw [hfl] at heq
    simp only [List.length_nil, Nat.cast_zero, add_zero] at heq
    have hguard : ¬(s.myConfig.MaxPages_ ≠ 0 ∧
        s.myStats.PagesInUse_ = (s.myConfig.MaxPages_ : Int)) := by
      rintro ⟨hne, heqP⟩
      rcases hroom with h0 | hlt
      · rw [hc3, h0] at hne; exact hne rfl
      · rw [hc3] at heqP
        rw [heqP] at heq
        have : ((cfg.MaxPages_ * cfg.ObjectsPerPage_ : Nat) : Int) = (k : Int) := by
          push_cast
          exact heq
        omega
    obtain ⟨s1, hanp, hlen1, hpg1, hcfg1, hps1, hl1, hi1⟩ := allocate_new_page_ok s hguard
    have hAe : Allocate s none false = popAndMark s1 none := by
      simp [Allocate, hcpps, hfl, hanp]
    have hlen1' : s1.FreeList_.length = cfg.ObjectsPerPage_ := by
      rw [hlen1, hfl]; simpa using hnb
    obtain ⟨b, rest, hfl1⟩ : ∃ b rest, s1.FreeList_ = b :: rest := by
      cases hfle : s1.FreeList_ with
      | nil => rw [hfle] at hlen1'; simp at hlen1'; omega
      | cons b rest => exact ⟨b, rest, rfl⟩
    obtain ⟨h1, h2, h3, h4, h5, h6, h7⟩ := popAndMark_cons s1 none b rest hfl1
    have hrest : rest.length + 1 = cfg.ObjectsPerPage_ := by
      rw [hfl1] at hlen1'; simpa using hlen1'
    have hpair : Allocate s none false = (Except.ok b, (Allocate s none false).2) := by
      conv_lhs => rw [hAe]
      rw [hAe, ← h1]
    refine ⟨b, hpair, ?_, ?_, ?_, ?_, ?_, ?_, ?_⟩
    · rw [hAe, h3, hcfg1]; exact hc1
    · rw [hAe, h3, hcfg1]; exact hc2
    · rw [hAe, h3, hcfg1]; exact hc3
    · rw [hAe, numBlocks_congr s1 _ h6 h7 h5,
        numBlocks_congr s s1 hl1 hi1 hps1]
      exact hnb
    · rw [hAe, h4, h2, hpg1]
      have hmul : (s.myStats.PagesInUse_ + 1) * (cfg.ObjectsPerPage_ : Int)
          = s.myStats.PagesInUse_ * (cfg.ObjectsPerPage_ : Int)
            + (cfg.ObjectsPerPage_ : Int) := by ring
      rw [hmul, heq]
      have : (rest.length : Int) + 1 = (cfg.ObjectsPerPage_ : Int) := by
        exact_mod_cast hrest
      omega
    · intro hne
      rw [hAe, h4, hpg1]
      rcases hroom with h0 | hlt
      · exact absurd h0 hne
      · have hO : (0 : Int) < (cfg.ObjectsPerPage_ : Int) := by exact_mod_cast hOPP
        have hkN : (k : Int) < (cfg.MaxPages_ : Int) * (cfg.ObjectsPerPage_ : Int) := by
          have := hlt
          push_cast at this ⊢
          omega
        have hPN : s.myStats.PagesInUse_ < (cfg.MaxPages_ : Int) := by
          have hPO : s.myStats.PagesInUse_ * (cfg.ObjectsPerPage_ : Int)
              < (cfg.MaxPages_ : Int) * (cfg.ObjectsPerPage_ : Int) := by
            rw [heq]; exact hkN
          exact lt_of_mul_lt_mul_right hPO (le_of_lt hO)
        omega
    · rw [hAe, h4, hpg1]; omega

/-- Iterating the step: `n` further allocations all succeed while capacity
remains, preserving the invariant. -/
lemma allocRun_inv (cfg : OAConfig) (hOPP : 1 ≤ cfg.ObjectsPerPage_)
    (hcpp : cfg.UseCPPMemManager_ = false) :
    ∀ (n k : Nat) (s : PoolState), AllocInv cfg k s →
      (cfg.MaxPages_ = 0 ∨ k + n ≤ cfg.MaxPages_ * cfg.ObjectsPerPage_) →
      ∃ s', allocRun s n = some s' ∧ AllocInv cfg (k + n) s' := by
  intro n
  induction n with
  | zero => intro k s hinv _; exact ⟨s, rfl, hinv⟩
  | succ n ih =>
    intro k s hinv hroom
    obtain ⟨b, hpair, hinv'⟩ := AllocInv_step cfg k s hOPP hcpp hinv
      (hroom.imp id (by omega))
    obtain ⟨s', hrun, hinv''⟩ := ih (k + 1) (Allocate s none false).2 hinv'
      (hroom.imp id (by omega))
    refine ⟨s', ?_, ?_⟩
    · show allocRun s (n + 1) = some s'
      unfold allocRun
      rw [hpair]
      exact hrun
    · have : k + (n + 1) = k + 1 + n := by omega
      rw [this]
      exact hinv''

/-- At full capacity the free list is empty, the page cap is reached, and
the next allocation fails with `E_NO_PAGES`, leaving the state untouched. -/
lemma AllocInv_full (cfg : OAConfig) (s : PoolState)
    (hOPP : 1 ≤ cfg.ObjectsPerPage_) (hMax : 1 ≤ cfg.MaxPages_)
    (hcpp : cfg.UseCPPMemManager_ = false)
    (hinv : AllocInv cfg (cfg.MaxPages_ * cfg.ObjectsPerPage_) s) :
    Allocate s none false = (Except.error OAErr.E_NO_PAGES, s) := by
  obtain ⟨hc1, hc2, hc3, hnb, heq, hbound, hpos⟩ := hinv
  have hO : (0 : Int) < (cfg.ObjectsPerPage_ : Int) := by exact_mod_cast hOPP
  have hle : s.myStats.PagesInUse_ ≤ (cfg.MaxPages_ : Int) := hbound (by omega)
  have hcast : ((cfg.MaxPages_ * cfg.ObjectsPerPage_ : Nat) : Int)
      = (cfg.MaxPages_ : Int) * (cfg.ObjectsPerPage_ : Int) := by push_cast; ring
  rw [hcast] at heq
  have hmle : s.myStats.PagesInUse_ * (cfg.ObjectsPerPage_ : Int)
      ≤ (cfg.MaxPages_ : Int) * (cfg.ObjectsPerPage_ : Int) :=
    mul_le_mul_of_nonneg_right hle (le_of_lt hO)
  have hlen0 : (s.FreeList_.length : Int) = 0 := by omega
  have hfl : s.FreeList_ = [] := by
    have : s.FreeList_.length = 0 := by exact_mod_cast hlen0
    exact List.length_eq_zero.mp this
  have hP : s.myStats.PagesInUse_ = (cfg.MaxPages_ : Int) := by
    have h1 : s.myStats.PagesInUse_ * (cfg.ObjectsPerPage_ : Int)
        = (cfg.MaxPages_ : Int) * (cfg.ObjectsPerPage_ : Int) := by omega
    exact mul_right_cancel₀ (ne_of_gt hO) h1
  have hcpps : s.myConfig.UseCPPMemManager_ = false := by
    rw [hc1]; exact hcpp
  have hguard : s.myConfig.MaxPages_ ≠ 0 ∧
      s.myStats.PagesInUse_ = (s.myConfig.MaxPages_ : Int) :=
    ⟨by rw [hc3]; omega, by rw [hc3]; exact hP⟩
  have hanp : allocate_new_page s false = .error .E_NO_PAGES := by
    unfold allocate_new_page
    rw [if_pos hguard]
  simp [Allocate, hcpps, hfl, hanp]

/-- C6: with `MaxPages_ = N ≥ 1`, the `N * ObjectsPerPage_` allocations
following construction all succeed, and the next one finds the free list
empty with the page cap reached and fails with `E_NO_PAGES`, leaving the
state untouched; with `MaxPages_ = 0` any number of allocations succeeds. -/
theorem C6_max_pages (ObjectSize : Nat) (config : OAConfig) (im : Nat → Nat)
    (hobj : 1 ≤ ObjectSize) (hOPP : 1 ≤ config.ObjectsPerPage_)
    (hcpp : config.UseCPPMemManager_ = false) :
    (1 ≤ config.MaxPages_ →
      ∃ s0 s1, mkPool ObjectSize config im = .ok s0 ∧
        allocRun s0 (config.MaxPages_ * config.ObjectsPerPage_) = some s1 ∧
        Allocate s1 none false = (Except.error OAErr.E_NO_PAGES, s1)) ∧
    (config.MaxPages_ = 0 →
      ∀ n : Nat, ∃ s0 s1, mkPool ObjectSize config im = .ok s0 ∧
        allocRun s0 n = some s1) := by
  obtain ⟨s0, hok, hcfg, hf1, hf2, hf3, hpages, hlen, hnb⟩ :=
    mkPool_ok ObjectSize config im hobj hOPP
  have hinv0 : AllocInv config 0 s0 := by
    refine ⟨hf1, hf2, hf3, hnb, ?_, ?_, ?_⟩
    · rw [hpages, hlen]; push_cast; ring
    · intro hne
      rw [hpages]
      have h1 : 1 ≤ config.MaxPages_ := by omega
      exact_mod_cast h1
    · rw [hpages]; norm_num
  constructor
  · intro hMax
    obtain ⟨s1, hrun, hinv1⟩ := allocRun_inv config hOPP hcpp
      (config.MaxPages_ * config.ObjectsPerPage_) 0 s0 hinv0 (Or.inr (by omega))
    rw [zero_add] at hinv1
    exact ⟨s0, s1, hok, hrun, AllocInv_full config s1 hOPP hMax hcpp hinv1⟩
  · intro hMax0 n
    obtain ⟨s1, hrun, _⟩ := allocRun_inv config hOPP hcpp n 0 s0 hinv0 (Or.inl hMax0)
    exact ⟨s0, s1, hok, hrun⟩

/-- C6 witness: the two-object one-page pool admits exactly two allocations
and the third raises `E_NO_PAGES`. -/
theorem C6_max_pages_witness :
    (1 ≤ c6cfg.MaxPages_ →
      ∃ s0 s1, mkPool 8 c6cfg zmem = .ok s0 ∧
        allocRun s0 (c6cfg.MaxPages_ * c6cfg.ObjectsPerPage_) = some s1 ∧
        Allocate s1 none false = (Except.error OAErr.E_NO_PAGES, s1)) ∧
    (c6cfg.MaxPages_ = 0 →
      ∀ n : Nat, ∃ s0 s1, mkPool 8 c6cfg zmem = .ok s0 ∧ allocRun s0 n = some s1) :=
  C6_max_pages 8 c6cfg zmem (by decide) (by decide) (by decide)
